import Mathlib

/-!
Verification development for the CardCreator repository (Go).

The repository contains three program variants:
* `src/main.go` — a batch tool: reads card records from a CSV file and writes
  one PNG email signature per record (`GenerateCard`, `readCardsFromCSV`, `main`);
* `src/server/emailfooterserver.go`, first program ("server A") — an HTTP server
  with the full field set (department, four land-grant lines) and phone-number
  reformatting;
* `src/server/emailfooterserver.go`, second program ("server B") — an HTTP server
  over the 7-field record, same draw sequence as the batch tool plus phone-number
  reformatting.

The embedding is shallow: decoded images are represented by their bounds, fonts by
their style plus a flag saying whether face creation succeeds, and the rasterizer
`font.Drawer.DrawString` by a recorded draw call (face, text, pen position, color)
appended to the image, since the claims are about which strings are drawn where, not
about pixels.  File and network I/O is represented by environment records holding
the `Except` results of the corresponding Go calls.  CSV input is embedded at the
record level: the input is the list of records the csv lexer yields, and the
field-count discipline of Go's `encoding/csv` reader (`FieldsPerRecord` defaulting
to `0`) is part of the embedded reader.
-/

namespace CardCreator

/-- Go `image.Rectangle`: the bounds of an image (`Min.X`, `Min.Y`, `Max.X`, `Max.Y`). -/
structure GoRect where
  minX : Int
  minY : Int
  maxX : Int
  maxY : Int
deriving DecidableEq, Repr

/-- A decoded background image (`image.Decode` result), abstracted to its bounds. -/
structure GoImage where
  bounds : GoRect
deriving DecidableEq, Repr

/-- Go `color.RGBA`. -/
structure RGBA where
  r : Nat
  g : Nat
  b : Nat
  a : Nat
deriving DecidableEq, Repr

/-- Which font file a face was created from. -/
inductive FontStyle where
  | regular
  | bold
  | italic
deriving DecidableEq, Repr

/-- A parsed font (`opentype.Parse` result): its style, plus whether
`opentype.NewFace` succeeds on it. -/
structure GoFont where
  style : FontStyle
  faceOk : Bool
deriving DecidableEq, Repr

/-- A font face (`opentype.NewFace` result): the underlying style and the point size
(the Go sizes are float literals with integral values; the code only uses them via
`int(...)`, so `Nat` is exact). -/
structure Face where
  style : FontStyle
  size : Nat
deriving DecidableEq, Repr

/-- `opentype.NewFace(font, opts)`: fails exactly when the font's face creation fails. -/
def newFace (f : GoFont) (size : Nat) : Except String Face :=
  if f.faceOk then .ok ⟨f.style, size⟩ else .error "failed to create font face"

/-- Which card field a draw call renders (positional in the Go code; the label is an
annotation of the call site, recorded so that individual lines can be addressed). -/
inductive FieldLabel where
  | name
  | pronouns
  | title
  | company
  | department
  | address
  | phone
  | email
  | landGrant1
  | landGrant2
  | landGrant3
  | landGrant4
deriving DecidableEq, Repr, BEq

/-- One `drawText` call: `font.Drawer.DrawString(text)` at pen position `(x, y)`. -/
structure DrawCall where
  label : FieldLabel
  face : Face
  text : String
  x : Int
  y : Int
  color : RGBA
deriving DecidableEq, Repr

/-- The `image.NewRGBA` canvas: bounds fixed at creation, the drawn background, and
the list of text draw calls made on it (in order). -/
structure RGBAImage where
  bounds : GoRect
  background : GoImage
  texts : List DrawCall
deriving DecidableEq, Repr

/-- `drawText` from the Go sources: draws `text` with `face` at `(x, y)` in color `c`.
Drawing writes into the pixel buffer and never changes the canvas bounds. -/
def drawText (img : RGBAImage) (face : Face) (label : FieldLabel) (text : String)
    (x y : Int) (c : RGBA) : RGBAImage :=
  { img with texts := img.texts ++ [⟨label, face, text, x, y, c⟩] }

/-- The first text drawn with the given label, if any. -/
def textOfLabel (img : RGBAImage) (l : FieldLabel) : Option String :=
  (img.texts.find? (fun d => decide (d.label = l))).map DrawCall.text

/-- `BusinessCard` of `src/main.go` and of server B (7 fields). -/
structure BusinessCard where
  Name : String
  Pronouns : String
  Title : String
  Company : String
  Address : String
  PhoneNumber : String
  Email : String
deriving DecidableEq, Repr

/-- `BusinessCard` of server A (12 fields). -/
structure BusinessCardFull where
  Name : String
  Pronouns : String
  Title : String
  Company : String
  Department : String
  Address : String
  LandGrant1 : String
  LandGrant2 : String
  LandGrant3 : String
  LandGrant4 : String
  PhoneNumber : String
  Email : String
deriving DecidableEq, Repr

/-- `strings.Map` dropping every rune outside `'0'..'9'` (the servers' `digitsOnly`).
All kept characters are ASCII, so Go's byte length equals the character count. -/
def digitsOnly (p : String) : String :=
  ⟨p.data.filter (fun r => decide ('0' ≤ r ∧ r ≤ '9'))⟩

/-- The servers' phone-number formatting: if the digits of the field number exactly
10, render `(XXX) XXX-XXXX` from those digits (byte slices of an ASCII string are
character slices); otherwise keep the field as given. -/
def formatPhone (p : String) : String :=
  let d := digitsOnly p
  if d.length = 10 then
    "(" ++ d.take 3 ++ ") " ++ (d.drop 3).take 3 ++ "-" ++ (d.drop 6).take 4
  else p

/-- The draw sequence of `GenerateCard` in `src/main.go` (batch variant), after the
assets have loaded: start at `y = 25`, x column 70, advancing `y` by `int(size) + k`
as in the source.  The phone number is drawn exactly as given (no formatting in this
variant).  A guarded optional field (pronouns) draws and advances only when
non-empty; the guard is one `if` in Go, rendered here as one `if` for the drawn
image and the same `if` for the advanced baseline. -/
def batchRender (bgImage : GoImage) (nameFace midFace titleFace otherFace pronounsFace : Face)
    (cardData : BusinessCard) : RGBAImage :=
  let nameColor : RGBA := ⟨242, 103, 34, 255⟩
  let titleTextColor : RGBA := ⟨0, 48, 71, 255⟩
  let companyTextColor : RGBA := ⟨109, 110, 113, 255⟩
  let otherTextColor : RGBA := ⟨109, 110, 113, 255⟩
  let img : RGBAImage := ⟨bgImage.bounds, bgImage, []⟩
  let y : Int := 25
  let img := drawText img nameFace .name cardData.Name 70 y nameColor
  let y := y + 20
  let img := if cardData.Pronouns ≠ "" then
      drawText img pronounsFace .pronouns cardData.Pronouns 70 y otherTextColor
    else img
  let y := if cardData.Pronouns ≠ "" then y + 13 + 1 else y
  let img := drawText img titleFace .title cardData.Title 70 y titleTextColor
  let y := y + 15
  let y := y + 10
  let img := drawText img midFace .company cardData.Company 70 y companyTextColor
  let y := y + 15
  let img := drawText img otherFace .address cardData.Address 70 y otherTextColor
  let y := y + 13
  let img := drawText img otherFace .phone cardData.PhoneNumber 70 y otherTextColor
  let y := y + 13
  drawText img otherFace .email cardData.Email 70 y otherTextColor

/-- The draw sequence of server B's `GenerateCard`: identical to the batch variant
except that the phone number is passed through `formatPhone` before being drawn. -/
def serverBRender (bgImage : GoImage) (nameFace midFace titleFace otherFace pronounsFace : Face)
    (cardData : BusinessCard) : RGBAImage :=
  let nameColor : RGBA := ⟨242, 103, 34, 255⟩
  let titleTextColor : RGBA := ⟨0, 48, 71, 255⟩
  let companyTextColor : RGBA := ⟨109, 110, 113, 255⟩
  let otherTextColor : RGBA := ⟨109, 110, 113, 255⟩
  let img : RGBAImage := ⟨bgImage.bounds, bgImage, []⟩
  let y : Int := 25
  let img := drawText img nameFace .name cardData.Name 70 y nameColor
  let y := y + 20
  let img := if cardData.Pronouns ≠ "" then
      drawText img pronounsFace .pronouns cardData.Pronouns 70 y otherTextColor
    else img
  let y := if cardData.Pronouns ≠ "" then y + 13 + 1 else y
  let img := drawText img titleFace .title cardData.Title 70 y titleTextColor
  let y := y + 15
  let y := y + 10
  let img := drawText img midFace .company cardData.Company 70 y companyTextColor
  let y := y + 15
  let img := drawText img otherFace .address cardData.Address 70 y otherTextColor
  let y := y + 13
  let formattedPhone := formatPhone cardData.PhoneNumber
  let img := drawText img otherFace .phone formattedPhone 70 y otherTextColor
  let y := y + 13
  drawText img otherFace .email cardData.Email 70 y otherTextColor

/-- The draw sequence of server A's `GenerateCard`: start at `y = 100`, x column 50,
`Title:`/`Company:`/`Department:`/`Address:`/`Phone:`/`Email:` prefixes, formatted
phone number, and guarded optional pronouns, department and four land-grant lines. -/
def serverARender (bgImage : GoImage) (nameFace midFace otherFace pronounsFace : Face)
    (cardData : BusinessCardFull) : RGBAImage :=
  let nameColor : RGBA := ⟨255, 165, 0, 255⟩
  let midTextColor : RGBA := ⟨200, 200, 200, 255⟩
  let otherTextColor : RGBA := ⟨255, 255, 255, 255⟩
  let img : RGBAImage := ⟨bgImage.bounds, bgImage, []⟩
  let y : Int := 100
  let img := drawText img nameFace .name cardData.Name 50 y nameColor
  let y := y + 36 + 5
  let img := if cardData.Pronouns ≠ "" then
      drawText img pronounsFace .pronouns cardData.Pronouns 50 y otherTextColor
    else img
  let y := if cardData.Pronouns ≠ "" then y + 18 + 5 else y
  let y := y + 10
  let img := drawText img midFace .title ("Title: " ++ cardData.Title) 50 y midTextColor
  let y := y + 28 + 10
  let img := drawText img midFace .company ("Company: " ++ cardData.Company) 50 y midTextColor
  let y := y + 28 + 10
  let img := if cardData.Department ≠ "" then
      drawText img midFace .department ("Department: " ++ cardData.Department) 50 y midTextColor
    else img
  let y := if cardData.Department ≠ "" then y + 28 + 10 else y
  let img := drawText img otherFace .address ("Address: " ++ cardData.Address) 50 y otherTextColor
  let y := y + 24 + 10
  let formattedPhone := formatPhone cardData.PhoneNumber
  let img := drawText img otherFace .phone ("Phone: " ++ formattedPhone) 50 y otherTextColor
  let y := y + 24 + 10
  let img := drawText img otherFace .email ("Email: " ++ cardData.Email) 50 y otherTextColor
  let y := y + 24 + 10
  let img := if cardData.LandGrant1 ≠ "" then
      drawText img otherFace .landGrant1 cardData.LandGrant1 50 y otherTextColor
    else img
  let y := if cardData.LandGrant1 ≠ "" then y + 24 + 5 else y
  let img := if cardData.LandGrant2 ≠ "" then
      drawText img otherFace .landGrant2 cardData.LandGrant2 50 y otherTextColor
    else img
  let y := if cardData.LandGrant2 ≠ "" then y + 24 + 5 else y
  let img := if cardData.LandGrant3 ≠ "" then
      drawText img otherFace .landGrant3 cardData.LandGrant3 50 y otherTextColor
    else img
  let y := if cardData.LandGrant3 ≠ "" then y + 24 + 5 else y
  if cardData.LandGrant4 ≠ "" then
    drawText img otherFace .landGrant4 cardData.LandGrant4 50 y otherTextColor
  else img

/-- Asset environment of the batch tool and server B: results of opening and
decoding the background image and of reading and parsing the two fonts. -/
structure AssetEnv where
  bg : Except String GoImage
  regularFont : Except String GoFont
  boldFont : Except String GoFont

/-- Asset environment of server A, which also loads an italic font. -/
structure AssetEnvI where
  bg : Except String GoImage
  regularFont : Except String GoFont
  boldFont : Except String GoFont
  italicFont : Except String GoFont

/-- `GenerateCard` of `src/main.go`: load the background, the regular and bold
fonts, create the five faces (name 20, mid 14, title 15, other 13, pronouns 13, in
source order), then run the draw sequence.  Any load or face-creation failure is
returned as an error. -/
def GenerateCardBatch (env : AssetEnv) (cardData : BusinessCard) : Except String RGBAImage := do
  let bgImage ← env.bg
  let regularFont ← env.regularFont
  let boldFont ← env.boldFont
  let nameFace ← newFace boldFont 20
  let midFace ← newFace boldFont 14
  let titleFace ← newFace boldFont 15
  let otherFace ← newFace regularFont 13
  let pronounsFace ← newFace regularFont 13
  return batchRender bgImage nameFace midFace titleFace otherFace pronounsFace cardData

/-- `GenerateCard` of server B: same loading as the batch variant, draw sequence
with the formatted phone number. -/
def GenerateCardServerB (env : AssetEnv) (cardData : BusinessCard) : Except String RGBAImage := do
  let bgImage ← env.bg
  let regularFont ← env.regularFont
  let boldFont ← env.boldFont
  let nameFace ← newFace boldFont 20
  let midFace ← newFace boldFont 14
  let titleFace ← newFace boldFont 15
  let otherFace ← newFace regularFont 13
  let pronounsFace ← newFace regularFont 13
  return serverBRender bgImage nameFace midFace titleFace otherFace pronounsFace cardData

/-- `GenerateCard` of server A: load the background and the regular, bold and italic
fonts, create the four faces (name 36 bold, mid 28 bold, other 24 regular, pronouns
18 italic, in source order), then run the draw sequence. -/
def GenerateCardServerA (env : AssetEnvI) (cardData : BusinessCardFull) :
    Except String RGBAImage := do
  let bgImage ← env.bg
  let regularFont ← env.regularFont
  let boldFont ← env.boldFont
  let italicFont ← env.italicFont
  let nameFace ← newFace boldFont 36
  let midFace ← newFace boldFont 28
  let otherFace ← newFace regularFont 24
  let pronounsFace ← newFace italicFont 18
  return serverARender bgImage nameFace midFace otherFace pronounsFace cardData

/-- `record[0..6]` of a CSV record with at least 7 fields (the call sites are guarded
by the length check of the source, so the defaults are never used there). -/
def mkCard (record : List String) : BusinessCard :=
  { Name := record.getD 0 ""
    Pronouns := record.getD 1 ""
    Title := record.getD 2 ""
    Company := record.getD 3 ""
    Address := record.getD 4 ""
    PhoneNumber := record.getD 5 ""
    Email := record.getD 6 "" }

/-- The record-reading loop of `readCardsFromCSV`, with the field-count discipline of
Go's `encoding/csv` reader: `FieldsPerRecord` defaults to `0`, so after the first
`Read` (the header) it is fixed to that record's field count and every later record
with a different count makes `Read` return `ErrFieldCount` — an error the loop in
`src/main.go` turns into a returned error before its own `len(record) < 7` check can
run.  A record passing the reader with fewer than 7 fields is logged and skipped;
otherwise it becomes a card, in row order. -/
def readRows (fieldsPerRecord : Nat) : List (List String) → Except String (List BusinessCard)
  | [] => .ok []
  | record :: rest =>
    if record.length ≠ fieldsPerRecord then
      .error "failed to read CSV record: wrong number of fields"
    else if record.length < 7 then
      readRows fieldsPerRecord rest
    else
      match readRows fieldsPerRecord rest with
      | .error e => .error e
      | .ok cards => .ok (mkCard record :: cards)

/-- `readCardsFromCSV` of `src/main.go`, embedded at the record level: the input is
the list of records the csv lexer yields.  An empty file (no header row) is an
error; otherwise the header is read and discarded, fixing the reader's expected
field count, and the remaining records are read by the loop. -/
def readCardsFromCSV : List (List String) → Except String (List BusinessCard)
  | [] => .error "CSV file is empty"
  | header :: rest => readRows header.length rest

/-- `strings.ReplaceAll(name, " ", "_")` on the character list: for a one-character
pattern every occurrence is a single character, so ReplaceAll replaces each space as
it is scanned. -/
def replaceAllSpace : List Char → List Char
  | [] => []
  | ch :: rest => (if ch = ' ' then '_' else ch) :: replaceAllSpace rest

/-- The batch output file name: the sanitized name followed by the
`_email_signature.png` suffix (`fmt.Sprintf("%s_email_signature.png", ...)`). -/
def outputFileName (name : String) : String :=
  String.mk (replaceAllSpace name.data) ++ "_email_signature.png"

/-- Environment of the batch `main`: the asset-loading results, the `os.Stat`
existence checks of the four input paths, whether `os.Create` succeeds for a given
output file name, and whether `png.Encode` into the created file succeeds for a
given image. -/
structure BatchEnv where
  assets : AssetEnv
  bgExists : Bool
  regularExists : Bool
  boldExists : Bool
  csvExists : Bool
  createOk : String → Bool
  pngEncodeOk : RGBAImage → Bool

/-- The per-card loop of the batch `main`: generate the image, build the output file
name, create the file and encode the PNG into it.  `log.Fatalf` exits the process,
so the first failure — generation, `os.Create`, or `png.Encode` — ends the run with
that fatal message. -/
def batchLoop (env : BatchEnv) : List BusinessCard → Except String (List (String × RGBAImage))
  | [] => .ok []
  | card :: rest =>
    match GenerateCardBatch env.assets card with
    | .error e => .error ("Error generating email signature for " ++ card.Name ++ ": " ++ e)
    | .ok cardImage =>
      let name := outputFileName card.Name
      if env.createOk name then
        if env.pngEncodeOk cardImage then
          match batchLoop env rest with
          | .error e => .error e
          | .ok out => .ok ((name, cardImage) :: out)
        else .error ("Failed to encode image to PNG for " ++ card.Name)
      else .error ("Failed to create output file " ++ name)

/-- Outcome of the batch `main`: a `log.Fatalf` exit, the "No cards found" early
return, or the ordered list of PNG writes (file name and written image). -/
inductive BatchResult where
  | fatal (msg : String)
  | noCards
  | done (writes : List (String × RGBAImage))
deriving DecidableEq, Repr

/-- `main` of `src/main.go`: check the four input paths exist, read the cards from
the CSV, return early when there are none, and otherwise run the per-card loop. -/
def runBatch (env : BatchEnv) (rows : List (List String)) : BatchResult :=
  if ¬ env.bgExists then .fatal "Background image file does not exist"
  else if ¬ env.regularExists then .fatal "Regular font file does not exist"
  else if ¬ env.boldExists then .fatal "Bold font file does not exist"
  else if ¬ env.csvExists then .fatal "CSV file does not exist"
  else
    match readCardsFromCSV rows with
    | .error e => .fatal ("Error reading cards from CSV: " ++ e)
    | .ok cards =>
      if cards.length = 0 then .noCards
      else
        match batchLoop env cards with
        | .error e => .fatal e
        | .ok writes => .done writes

/-- The PNG writes a batch run performed (empty unless the run completed). -/
def writesOf : BatchResult → List (String × RGBAImage)
  | .done writes => writes
  | _ => []

/-- The distinct files present after a completed batch run: writing twice to the same
name truncates and rewrites one file, so the files produced are the distinct names
written. -/
def filesProduced (res : BatchResult) : List String :=
  ((writesOf res).map Prod.fst).dedup

/-- An HTTP request as the handlers observe it: the method, whether `r.ParseForm()`
succeeds, and `r.FormValue` (which returns the empty string for absent keys). -/
structure HttpRequest where
  method : String
  parseFormOk : Bool
  formValue : String → String

/-- The response the handler writes: status, the two headers the handler touches,
the PNG body bytes, and the plain-text body written by `http.Error`. -/
structure HttpResponse where
  status : Nat
  contentType : Option String
  contentDisposition : Option String
  body : List Nat
  bodyText : String
deriving Repr

/-- The response before the handler writes anything. -/
def initResponse : HttpResponse := ⟨200, none, none, [], ""⟩

/-- `http.Error(w, msg, code)` on a response whose body has not begun: sets the
status and a plain-text content type and writes the message followed by a newline;
headers other than Content-Type already set (here Content-Disposition) remain. -/
def httpError (resp : HttpResponse) (msg : String) (code : Nat) : HttpResponse :=
  { resp with
    status := code
    contentType := some "text/plain; charset=utf-8"
    body := []
    bodyText := msg ++ "\n" }

/-- `http.Error(w, msg, code)` on a response whose body has already begun: the first
`Write` call committed the status and headers, so net/http ignores the header
mutations and treats the `WriteHeader(code)` as superfluous — only the message write
reaches the already-begun stream. -/
def httpErrorCommitted (resp : HttpResponse) (msg : String) : HttpResponse :=
  { resp with bodyText := msg ++ "\n" }

/-- Side effects of one handler run, recorded in order: the request form was read,
a card image was generated, the image was PNG-encoded into the response. -/
inductive HEvent where
  | readForm
  | generatedImage
  | encodedPng
deriving DecidableEq, Repr

/-- Server A's form-to-card mapping (`r.FormValue` per field). -/
def cardOfFormA (f : String → String) : BusinessCardFull :=
  { Name := f "name"
    Pronouns := f "pronouns"
    Title := f "title"
    Company := f "company"
    Department := f "department"
    Address := f "address"
    LandGrant1 := f "land_grant_1"
    LandGrant2 := f "land_grant_2"
    LandGrant3 := f "land_grant_3"
    LandGrant4 := f "land_grant_4"
    PhoneNumber := f "phone_number"
    Email := f "email" }

/-- Server B's form-to-card mapping. -/
def cardOfFormB (f : String → String) : BusinessCard :=
  { Name := f "name"
    Pronouns := f "pronouns"
    Title := f "title"
    Company := f "company"
    Address := f "address"
    PhoneNumber := f "phone_number"
    Email := f "email" }

/-- `cardHandler` of server A.  `enc` is `png.Encode` into the response stream: on
success it yields the encoded bytes; on failure it yields the error message together
with the bytes it wrote before failing.  `png.Encode` writes the PNG signature
before anything else, and the response's first `Write` commits the 200 status and
the two headers the handler set, so when `Encode` reports an error the response has
already begun and the handler's `http.Error(..., 500)` is a superfluous
`WriteHeader` that net/http ignores — only its message reaches the body. -/
def cardHandlerA (env : AssetEnvI) (enc : RGBAImage → Except (String × List Nat) (List Nat))
    (r : HttpRequest) : HttpResponse × List HEvent :=
  if r.method ≠ "POST" then
    (httpError initResponse "Method not allowed" 405, [])
  else if ¬ r.parseFormOk then
    (httpError initResponse "Failed to parse form data" 400, [.readForm])
  else
    let cardData := cardOfFormA r.formValue
    match GenerateCardServerA env cardData with
    | .error _ => (httpError initResponse "Failed to generate business card image" 500, [.readForm])
    | .ok img =>
      let resp := { initResponse with
        contentType := some "image/png"
        contentDisposition := some "attachment; filename=\"emailsignature.png\"" }
      match enc img with
      | .error ew =>
        (httpErrorCommitted { resp with body := ew.2 } "Failed to encode PNG image",
          [.readForm, .generatedImage])
      | .ok bytes =>
        ({ resp with body := bytes }, [.readForm, .generatedImage, .encodedPng])

/-- `cardHandler` of server B: same flow as server A (including the committed-200
behaviour of an encoding failure) with the 7-field card and the
`EmailSignature.png` attachment file name. -/
def cardHandlerB (env : AssetEnv) (enc : RGBAImage → Except (String × List Nat) (List Nat))
    (r : HttpRequest) : HttpResponse × List HEvent :=
  if r.method ≠ "POST" then
    (httpError initResponse "Method not allowed" 405, [])
  else if ¬ r.parseFormOk then
    (httpError initResponse "Failed to parse form data" 400, [.readForm])
  else
    let cardData := cardOfFormB r.formValue
    match GenerateCardServerB env cardData with
    | .error _ => (httpError initResponse "Failed to generate business card image" 500, [.readForm])
    | .ok img =>
      let resp := { initResponse with
        contentType := some "image/png"
        contentDisposition := some "attachment; filename=\"EmailSignature.png\"" }
      match enc img with
      | .error ew =>
        (httpErrorCommitted { resp with body := ew.2 } "Failed to encode PNG image",
          [.readForm, .generatedImage])
      | .ok bytes =>
        ({ resp with body := bytes }, [.readForm, .generatedImage, .encodedPng])

/-! Concrete fixtures used by counterexamples and witnesses. -/

/-- A concrete decoded background image. -/
def bgImg0 : GoImage := ⟨⟨0, 0, 600, 200⟩⟩

/-- A concrete parsed regular font whose faces create successfully. -/
def fontR0 : GoFont := ⟨.regular, true⟩

/-- A concrete parsed bold font whose faces create successfully. -/
def fontB0 : GoFont := ⟨.bold, true⟩

/-- A concrete parsed italic font whose faces create successfully. -/
def fontI0 : GoFont := ⟨.italic, true⟩

/-- Assets that all load successfully (batch tool and server B). -/
def assetsOk0 : AssetEnv := ⟨.ok bgImg0, .ok fontR0, .ok fontB0⟩

/-- Assets that all load successfully (server A). -/
def assetsOkI0 : AssetEnvI := ⟨.ok bgImg0, .ok fontR0, .ok fontB0, .ok fontI0⟩

/-- Assets whose background image fails to open (batch tool and server B). -/
def assetsBadBg : AssetEnv :=
  ⟨.error "failed to open background image", .ok fontR0, .ok fontB0⟩

/-- Assets whose background image fails to open (server A). -/
def assetsBadBgI : AssetEnvI :=
  ⟨.error "failed to open background image", .ok fontR0, .ok fontB0, .ok fontI0⟩

/-- A fully healthy batch environment. -/
def envBatchOk : BatchEnv := ⟨assetsOk0, true, true, true, true, fun _ => true, fun _ => true⟩

/-- A batch environment whose background decode fails. -/
def envBatchBadBg : BatchEnv :=
  ⟨assetsBadBg, true, true, true, true, fun _ => true, fun _ => true⟩

/-- The 7-field CSV header row. -/
def hdr7 : List String :=
  ["name", "pronouns", "title", "company", "address", "phone", "email"]

/-- A data row with only 3 fields. -/
def shortRow : List String := ["Ada Lovelace", "she/her", "Engineer"]

/-- A well-formed 7-field data row. -/
def goodRow : List String :=
  ["Ada Lovelace", "she/her", "Engineer", "ACME", "1 Main St", "5551234567", "ada@example.com"]

/-- An image used as the default of option extraction in fixtures. -/
def junkImg : RGBAImage := ⟨⟨0, 0, 0, 0⟩, ⟨⟨0, 0, 0, 0⟩⟩, []⟩

/-- The value of a successful `Except`, or the junk image. -/
def okImage (e : Except String RGBAImage) : RGBAImage :=
  match e with
  | .ok v => v
  | .error _ => junkImg

/-! Spec-side model for claim C4: a card in which an optional field may be absent
(`none`) rather than merely empty.  These definitions follow the spec's words — a
field that does not exist produces no drawn line and no baseline advance — so that
the code's treatment of the empty string can be compared with them. -/

/-- A 7-field card whose optional field (pronouns) may be absent. -/
structure CardOptBatch where
  Name : String
  Pronouns : Option String
  Title : String
  Company : String
  Address : String
  PhoneNumber : String
  Email : String
deriving DecidableEq, Repr

/-- A 12-field card whose optional fields (pronouns, department, four land-grant
lines) may be absent. -/
structure CardOptFull where
  Name : String
  Pronouns : Option String
  Title : String
  Company : String
  Department : Option String
  Address : String
  LandGrant1 : Option String
  LandGrant2 : Option String
  LandGrant3 : Option String
  LandGrant4 : Option String
  PhoneNumber : String
  Email : String
deriving DecidableEq, Repr

/-- Read an empty optional field as absent. -/
def optOfField (s : String) : Option String :=
  if s = "" then none else some s

/-- A batch card with its empty pronouns field read as absent. -/
def toOptBatch (c : BusinessCard) : CardOptBatch :=
  { Name := c.Name
    Pronouns := optOfField c.Pronouns
    Title := c.Title
    Company := c.Company
    Address := c.Address
    PhoneNumber := c.PhoneNumber
    Email := c.Email }

/-- A server A card with its empty optional fields read as absent. -/
def toOptFull (c : BusinessCardFull) : CardOptFull :=
  { Name := c.Name
    Pronouns := optOfField c.Pronouns
    Title := c.Title
    Company := c.Company
    Department := optOfField c.Department
    Address := c.Address
    LandGrant1 := optOfField c.LandGrant1
    LandGrant2 := optOfField c.LandGrant2
    LandGrant3 := optOfField c.LandGrant3
    LandGrant4 := optOfField c.LandGrant4
    PhoneNumber := c.PhoneNumber
    Email := c.Email }

/-- Spec-side batch draw sequence over `CardOptBatch`: a field that does not exist
is not drawn and advances no baseline; an existing field is drawn and advances the
baseline exactly as the code does. -/
def batchRenderOpt (bgImage : GoImage)
    (nameFace midFace titleFace otherFace pronounsFace : Face)
    (cardData : CardOptBatch) : RGBAImage :=
  let nameColor : RGBA := ⟨242, 103, 34, 255⟩
  let titleTextColor : RGBA := ⟨0, 48, 71, 255⟩
  let companyTextColor : RGBA := ⟨109, 110, 113, 255⟩
  let otherTextColor : RGBA := ⟨109, 110, 113, 255⟩
  let img : RGBAImage := ⟨bgImage.bounds, bgImage, []⟩
  let y : Int := 25
  let img := drawText img nameFace .name cardData.Name 70 y nameColor
  let y := y + 20
  let img := match cardData.Pronouns with
    | none => img
    | some s => drawText img pronounsFace .pronouns s 70 y otherTextColor
  let y := match cardData.Pronouns with
    | none => y
    | some _ => y + 13 + 1
  let img := drawText img titleFace .title cardData.Title 70 y titleTextColor
  let y := y + 15
  let y := y + 10
  let img := drawText img midFace .company cardData.Company 70 y companyTextColor
  let y := y + 15
  let img := drawText img otherFace .address cardData.Address 70 y otherTextColor
  let y := y + 13
  let img := drawText img otherFace .phone cardData.PhoneNumber 70 y otherTextColor
  let y := y + 13
  drawText img otherFace .email cardData.Email 70 y otherTextColor

/-- Spec-side server A draw sequence over `CardOptFull`: fields that do not exist
are not drawn and advance no baseline. -/
def serverARenderOpt (bgImage : GoImage) (nameFace midFace otherFace pronounsFace : Face)
    (cardData : CardOptFull) : RGBAImage :=
  let nameColor : RGBA := ⟨255, 165, 0, 255⟩
  let midTextColor : RGBA := ⟨200, 200, 200, 255⟩
  let otherTextColor : RGBA := ⟨255, 255, 255, 255⟩
  let img : RGBAImage := ⟨bgImage.bounds, bgImage, []⟩
  let y : Int := 100
  let img := drawText img nameFace .name cardData.Name 50 y nameColor
  let y := y + 36 + 5
  let img := match cardData.Pronouns with
    | none => img
    | some s => drawText img pronounsFace .pronouns s 50 y otherTextColor
  let y := match cardData.Pronouns with
    | none => y
    | some _ => y + 18 + 5
  let y := y + 10
  let img := drawText img midFace .title ("Title: " ++ cardData.Title) 50 y midTextColor
  let y := y + 28 + 10
  let img := drawText img midFace .company ("Company: " ++ cardData.Company) 50 y midTextColor
  let y := y + 28 + 10
  let img := match cardData.Department with
    | none => img
    | some s => drawText img midFace .department ("Department: " ++ s) 50 y midTextColor
  let y := match cardData.Department with
    | none => y
    | some _ => y + 28 + 10
  let img := drawText img otherFace .address ("Address: " ++ cardData.Address) 50 y otherTextColor
  let y := y + 24 + 10
  let formattedPhone := formatPhone cardData.PhoneNumber
  let img := drawText img otherFace .phone ("Phone: " ++ formattedPhone) 50 y otherTextColor
  let y := y + 24 + 10
  let img := drawText img otherFace .email ("Email: " ++ cardData.Email) 50 y otherTextColor
  let y := y + 24 + 10
  let img := match cardData.LandGrant1 with
    | none => img
    | some s => drawText img otherFace .landGrant1 s 50 y otherTextColor
  let y := match cardData.LandGrant1 with
    | none => y
    | some _ => y + 24 + 5
  let img := match cardData.LandGrant2 with
    | none => img
    | some s => drawText img otherFace .landGrant2 s 50 y otherTextColor
  let y := match cardData.LandGrant2 with
    | none => y
    | some _ => y + 24 + 5
  let img := match cardData.LandGrant3 with
    | none => img
    | some s => drawText img otherFace .landGrant3 s 50 y otherTextColor
  let y := match cardData.LandGrant3 with
    | none => y
    | some _ => y + 24 + 5
  match cardData.LandGrant4 with
  | none => img
  | some s => drawText img otherFace .landGrant4 s 50 y otherTextColor

/-! Helper lemmas shared by the claim theorems. -/

/-- Success shape of the batch `GenerateCard`: every asset loaded, every face was
created, and the result is the batch draw sequence over them. -/
theorem generateBatch_ok {env : AssetEnv} {c : BusinessCard} {img : RGBAImage}
    (h : GenerateCardBatch env c = .ok img) :
    ∃ bg rf bf, env.bg = .ok bg ∧ env.regularFont = .ok rf ∧ env.boldFont = .ok bf ∧
      rf.faceOk = true ∧ bf.faceOk = true ∧
      img = batchRender bg ⟨bf.style, 20⟩ ⟨bf.style, 14⟩ ⟨bf.style, 15⟩
        ⟨rf.style, 13⟩ ⟨rf.style, 13⟩ c := by
  obtain ⟨bg, rf, bf⟩ := env
  cases bg with
  | error e => simp [GenerateCardBatch, Bind.bind, Except.bind, pure, Except.pure] at h
  | ok bgv =>
    cases rf with
    | error e => simp [GenerateCardBatch, Bind.bind, Except.bind, pure, Except.pure] at h
    | ok rfv =>
      cases bf with
      | error e => simp [GenerateCardBatch, Bind.bind, Except.bind, pure, Except.pure] at h
      | ok bfv =>
        obtain ⟨rstyle, rok⟩ := rfv
        obtain ⟨bstyle, bok⟩ := bfv
        cases rok <;> cases bok <;>
          simp_all [GenerateCardBatch, Bind.bind, Except.bind, pure, Except.pure, newFace]

/-- Success shape of server B's `GenerateCard`. -/
theorem generateServerB_ok {env : AssetEnv} {c : BusinessCard} {img : RGBAImage}
    (h : GenerateCardServerB env c = .ok img) :
    ∃ bg rf bf, env.bg = .ok bg ∧ env.regularFont = .ok rf ∧ env.boldFont = .ok bf ∧
      rf.faceOk = true ∧ bf.faceOk = true ∧
      img = serverBRender bg ⟨bf.style, 20⟩ ⟨bf.style, 14⟩ ⟨bf.style, 15⟩
        ⟨rf.style, 13⟩ ⟨rf.style, 13⟩ c := by
  obtain ⟨bg, rf, bf⟩ := env
  cases bg with
  | error e => simp [GenerateCardServerB, Bind.bind, Except.bind, pure, Except.pure] at h
  | ok bgv =>
    cases rf with
    | error e => simp [GenerateCardServerB, Bind.bind, Except.bind, pure, Except.pure] at h
    | ok rfv =>
      cases bf with
      | error e => simp [GenerateCardServerB, Bind.bind, Except.bind, pure, Except.pure] at h
      | ok bfv =>
        obtain ⟨rstyle, rok⟩ := rfv
        obtain ⟨bstyle, bok⟩ := bfv
        cases rok <;> cases bok <;>
          simp_all [GenerateCardServerB, Bind.bind, Except.bind, pure, Except.pure, newFace]

/-- Success shape of server A's `GenerateCard`. -/
theorem generateServerA_ok {env : AssetEnvI} {c : BusinessCardFull} {img : RGBAImage}
    (h : GenerateCardServerA env c = .ok img) :
    ∃ bg rf bf itf, env.bg = .ok bg ∧ env.regularFont = .ok rf ∧ env.boldFont = .ok bf ∧
      env.italicFont = .ok itf ∧ rf.faceOk = true ∧ bf.faceOk = true ∧ itf.faceOk = true ∧
      img = serverARender bg ⟨bf.style, 36⟩ ⟨bf.style, 28⟩ ⟨rf.style, 24⟩
        ⟨itf.style, 18⟩ c := by
  obtain ⟨bg, rf, bf, itf⟩ := env
  cases bg with
  | error e => simp [GenerateCardServerA, Bind.bind, Except.bind, pure, Except.pure] at h
  | ok bgv =>
    cases rf with
    | error e => simp [GenerateCardServerA, Bind.bind, Except.bind, pure, Except.pure] at h
    | ok rfv =>
      cases bf with
      | error e => simp [GenerateCardServerA, Bind.bind, Except.bind, pure, Except.pure] at h
      | ok bfv =>
        cases itf with
        | error e => simp [GenerateCardServerA, Bind.bind, Except.bind, pure, Except.pure] at h
        | ok itfv =>
          obtain ⟨rstyle, rok⟩ := rfv
          obtain ⟨bstyle, bok⟩ := bfv
          obtain ⟨istyle, iok⟩ := itfv
          cases rok <;> cases bok <;> cases iok <;>
            simp_all [GenerateCardServerA, Bind.bind, Except.bind, pure, Except.pure, newFace]

/-- Loading success makes the batch `GenerateCard` return the batch draw sequence. -/
theorem generateBatch_ok_intro {env : AssetEnv} {bg : GoImage} {rf bf : GoFont}
    (hbg : env.bg = .ok bg) (hrf : env.regularFont = .ok rf) (hbf : env.boldFont = .ok bf)
    (hrok : rf.faceOk = true) (hbok : bf.faceOk = true) (c : BusinessCard) :
    GenerateCardBatch env c = .ok (batchRender bg ⟨bf.style, 20⟩ ⟨bf.style, 14⟩
      ⟨bf.style, 15⟩ ⟨rf.style, 13⟩ ⟨rf.style, 13⟩ c) := by
  simp [GenerateCardBatch, Bind.bind, Except.bind, pure, Except.pure, newFace, hbg, hrf, hbf, hrok, hbok]

/-- The batch draw sequence keeps the background's bounds. -/
theorem batchRender_bounds (bg : GoImage) (nf mf tf of pf : Face) (c : BusinessCard) :
    (batchRender bg nf mf tf of pf c).bounds = bg.bounds := by
  simp only [batchRender, drawText]
  split_ifs <;> rfl

/-- Server B's draw sequence keeps the background's bounds. -/
theorem serverBRender_bounds (bg : GoImage) (nf mf tf of pf : Face) (c : BusinessCard) :
    (serverBRender bg nf mf tf of pf c).bounds = bg.bounds := by
  simp only [serverBRender, drawText]
  split_ifs <;> rfl

set_option maxHeartbeats 1600000 in
/-- Server A's draw sequence keeps the background's bounds. -/
theorem serverARender_bounds (bg : GoImage) (nf mf of pf : Face) (c : BusinessCardFull) :
    (serverARender bg nf mf of pf c).bounds = bg.bounds := by
  by_cases h1 : c.Pronouns ≠ "" <;> by_cases h2 : c.Department ≠ "" <;>
    by_cases h3 : c.LandGrant1 ≠ "" <;> by_cases h4 : c.LandGrant2 ≠ "" <;>
    by_cases h5 : c.LandGrant3 ≠ "" <;> by_cases h6 : c.LandGrant4 ≠ "" <;>
    simp [serverARender, drawText, h1, h2, h3, h4, h5, h6]

/-- When every record has the expected field count `n` and `n` is at least 7, the
reading loop accepts every record, in order. -/
theorem readRows_all_ok {n : Nat} {rows : List (List String)}
    (hlen : ∀ r ∈ rows, r.length = n) (h7 : 7 ≤ n) :
    readRows n rows = .ok (rows.map mkCard) := by
  induction rows with
  | nil => rfl
  | cons r rest ih =>
    have hr : r.length = n := hlen r (List.mem_cons_self r rest)
    have hrest : ∀ q ∈ rest, q.length = n := fun q hq => hlen q (List.mem_cons_of_mem r hq)
    have hnot : ¬ n < 7 := by omega
    simp [readRows, hr, hnot, ih hrest]

/-- Every card the reading loop returns is built from one of the records it read. -/
theorem readRows_mem {n : Nat} {rows : List (List String)} {cards : List BusinessCard}
    (h : readRows n rows = .ok cards) :
    ∀ c ∈ cards, ∃ row ∈ rows, c = mkCard row := by
  induction rows generalizing cards with
  | nil =>
    intro c hc
    simp [readRows] at h
    subst h
    simp at hc
  | cons r rest ih =>
    unfold readRows at h
    split at h
    · simp at h
    · split at h
      · intro c hc
        obtain ⟨row, hrow, e⟩ := ih h c hc
        exact ⟨row, List.mem_cons_of_mem r hrow, e⟩
      · split at h
        · simp at h
        · rename_i tailCards heq
          obtain rfl : mkCard r :: tailCards = cards := by simpa using h
          intro c hc
          rcases List.mem_cons.mp hc with hc0 | hc1
          · exact ⟨r, List.mem_cons_self r rest, hc0⟩
          · obtain ⟨row, hrow, e⟩ := ih heq c hc1
            exact ⟨row, List.mem_cons_of_mem r hrow, e⟩

/-- A finished per-card loop wrote one file per card, in card order, named by
`outputFileName`. -/
theorem batchLoop_names {env : BatchEnv} {cards : List BusinessCard}
    {writes : List (String × RGBAImage)} (h : batchLoop env cards = .ok writes) :
    writes.map Prod.fst = cards.map (fun c => outputFileName c.Name) := by
  induction cards generalizing writes with
  | nil =>
    simp [batchLoop] at h
    simp [← h]
  | cons card rest ih =>
    unfold batchLoop at h
    match hgen : GenerateCardBatch env.assets card with
    | .error e => rw [hgen] at h; simp at h
    | .ok img =>
      rw [hgen] at h
      by_cases hcr : env.createOk (outputFileName card.Name)
      · simp [hcr] at h
        by_cases hen : env.pngEncodeOk img
        · simp [hen] at h
          match hrec : batchLoop env rest with
          | .error e => rw [hrec] at h; simp at h
          | .ok out =>
            rw [hrec] at h
            simp at h
            rw [← h]
            simp [ih hrec]
        · simp [hen] at h
      · simp [hcr] at h

/-- When the assets load, the faces create, every file creation succeeds and every
PNG encoding succeeds, the per-card loop writes exactly one image per card, in
order. -/
theorem batchLoop_all_ok {env : BatchEnv} {bg : GoImage} {rf bf : GoFont}
    (hbg : env.assets.bg = .ok bg) (hrf : env.assets.regularFont = .ok rf)
    (hbf : env.assets.boldFont = .ok bf)
    (hrok : rf.faceOk = true) (hbok : bf.faceOk = true)
    (hcr : ∀ name, env.createOk name = true)
    (hen : ∀ img, env.pngEncodeOk img = true) (cards : List BusinessCard) :
    batchLoop env cards = .ok (cards.map (fun c =>
      (outputFileName c.Name, batchRender bg ⟨bf.style, 20⟩ ⟨bf.style, 14⟩
        ⟨bf.style, 15⟩ ⟨rf.style, 13⟩ ⟨rf.style, 13⟩ c))) := by
  induction cards with
  | nil => rfl
  | cons card rest ih =>
    unfold batchLoop
    rw [generateBatch_ok_intro hbg hrf hbf hrok hbok card]
    simp [hcr, hen, ih]

/-- ReplaceAll with the one-character pattern `" "` maps each character, replacing
spaces by underscores. -/
theorem replaceAllSpace_eq_map (l : List Char) :
    replaceAllSpace l = l.map (fun ch => if ch = ' ' then '_' else ch) := by
  induction l with
  | nil => rfl
  | cons ch rest ih => simp [replaceAllSpace, ih]

/-- A field whose digits number exactly 10 is reformatted from those digits. -/
theorem formatPhone_of_ten {p : String} (h : (digitsOnly p).length = 10) :
    formatPhone p = "(" ++ (digitsOnly p).take 3 ++ ") " ++ ((digitsOnly p).drop 3).take 3
      ++ "-" ++ ((digitsOnly p).drop 6).take 4 := by
  simp [formatPhone, h]

/-- A field whose digits do not number exactly 10 is kept as given. -/
theorem formatPhone_of_not_ten {p : String} (h : (digitsOnly p).length ≠ 10) :
    formatPhone p = p := by
  simp [formatPhone, h]

/-- The batch draw sequence draws the phone field exactly as given. -/
theorem batchRender_phone (bg : GoImage) (nf mf tf of pf : Face) (c : BusinessCard) :
    textOfLabel (batchRender bg nf mf tf of pf c) .phone = some c.PhoneNumber := by
  rcases eq_or_ne c.Pronouns "" with h1 | h1 <;>
    simp [batchRender, drawText, textOfLabel, List.find?, h1]

/-- Server B's draw sequence draws the formatted phone field. -/
theorem serverBRender_phone (bg : GoImage) (nf mf tf of pf : Face) (c : BusinessCard) :
    textOfLabel (serverBRender bg nf mf tf of pf c) .phone
      = some (formatPhone c.PhoneNumber) := by
  rcases eq_or_ne c.Pronouns "" with h1 | h1 <;>
    simp [serverBRender, drawText, textOfLabel, List.find?, h1]

set_option maxHeartbeats 3200000 in
/-- Server A's draw sequence draws the formatted phone field behind its prefixed label. -/
theorem serverARender_phone (bg : GoImage) (nf mf of pf : Face) (c : BusinessCardFull) :
    textOfLabel (serverARender bg nf mf of pf c) .phone
      = some ("Phone: " ++ formatPhone c.PhoneNumber) := by
  rcases eq_or_ne c.Pronouns "" with h1 | h1 <;> rcases eq_or_ne c.Department "" with h2 | h2 <;>
    rcases eq_or_ne c.LandGrant1 "" with h3 | h3 <;> rcases eq_or_ne c.LandGrant2 "" with h4 | h4 <;>
    rcases eq_or_ne c.LandGrant3 "" with h5 | h5 <;> rcases eq_or_ne c.LandGrant4 "" with h6 | h6 <;>
    simp [serverARender, drawText, textOfLabel, List.find?, h1, h2, h3, h4, h5, h6]

/-- The batch draw sequence treats an empty pronouns field exactly as a card on
which the field does not exist. -/
theorem batchRender_eq_opt (bg : GoImage) (nf mf tf of pf : Face) (c : BusinessCard) :
    batchRender bg nf mf tf of pf c = batchRenderOpt bg nf mf tf of pf (toOptBatch c) := by
  rcases eq_or_ne c.Pronouns "" with h1 | h1 <;>
    simp [batchRender, batchRenderOpt, toOptBatch, optOfField, drawText, h1]

set_option maxHeartbeats 3200000 in
/-- Server A's draw sequence treats empty optional fields exactly as a card on
which those fields do not exist. -/
theorem serverARender_eq_opt (bg : GoImage) (nf mf of pf : Face) (c : BusinessCardFull) :
    serverARender bg nf mf of pf c = serverARenderOpt bg nf mf of pf (toOptFull c) := by
  rcases eq_or_ne c.Pronouns "" with h1 | h1 <;> rcases eq_or_ne c.Department "" with h2 | h2 <;>
    rcases eq_or_ne c.LandGrant1 "" with h3 | h3 <;> rcases eq_or_ne c.LandGrant2 "" with h4 | h4 <;>
    rcases eq_or_ne c.LandGrant3 "" with h5 | h5 <;> rcases eq_or_ne c.LandGrant4 "" with h6 | h6 <;>
    simp [serverARender, serverARenderOpt, toOptFull, optOfField, drawText,
      h1, h2, h3, h4, h5, h6]

/-! Claim theorems. -/

/-- C1 counterexample: the claim quantifies over every program variant, but the
batch variant (`src/main.go`) draws the phone number exactly as given: for the card
of `goodRow`, whose phone field holds exactly 10 digits, the batch variant draws
`5551234567`, not `(555) 123-4567`. -/
theorem c1_counterexample :
    (digitsOnly "5551234567").length = 10
    ∧ GenerateCardBatch assetsOk0 (mkCard goodRow)
        = .ok (okImage (GenerateCardBatch assetsOk0 (mkCard goodRow)))
    ∧ textOfLabel (okImage (GenerateCardBatch assetsOk0 (mkCard goodRow))) .phone
        = some "5551234567"
    ∧ "5551234567" ≠ "(555) 123-4567" := by
  refine ⟨by decide, rfl, rfl, by decide⟩

/-- C1 (amended): the two server variants draw a phone number whose digit characters
number exactly 10 reformatted as `(XXX) XXX-XXXX` (built from its digits, server A
behind its `Phone: ` label), and draw any other phone number exactly as given; the
batch variant draws the phone number exactly as given in every case. -/
theorem c1_amended :
    (∀ p, (digitsOnly p).length = 10 →
      formatPhone p = "(" ++ (digitsOnly p).take 3 ++ ") " ++ ((digitsOnly p).drop 3).take 3
        ++ "-" ++ ((digitsOnly p).drop 6).take 4)
    ∧ (∀ p, (digitsOnly p).length ≠ 10 → formatPhone p = p)
    ∧ (∀ env c img, GenerateCardServerA env c = .ok img →
        textOfLabel img .phone = some ("Phone: " ++ formatPhone c.PhoneNumber))
    ∧ (∀ env c img, GenerateCardServerB env c = .ok img →
        textOfLabel img .phone = some (formatPhone c.PhoneNumber))
    ∧ (∀ env c img, GenerateCardBatch env c = .ok img →
        textOfLabel img .phone = some c.PhoneNumber) := by
  refine ⟨fun p h => formatPhone_of_ten h, fun p h => formatPhone_of_not_ten h, ?_, ?_, ?_⟩
  · intro env c img h
    obtain ⟨bg, rf, bf, itf, hbg, hrf, hbf, hitf, hrok, hbok, hiok, rfl⟩ := generateServerA_ok h
    exact serverARender_phone bg _ _ _ _ c
  · intro env c img h
    obtain ⟨bg, rf, bf, hbg, hrf, hbf, hrok, hbok, rfl⟩ := generateServerB_ok h
    exact serverBRender_phone bg _ _ _ _ _ c
  · intro env c img h
    obtain ⟨bg, rf, bf, hbg, hrf, hbf, hrok, hbok, rfl⟩ := generateBatch_ok h
    exact batchRender_phone bg _ _ _ _ _ c

/-- C1 amended witness: concrete instances of every part of the amended claim. -/
theorem c1_amended_witness :
    formatPhone "555-123-4567"
      = "(" ++ (digitsOnly "555-123-4567").take 3 ++ ") "
        ++ ((digitsOnly "555-123-4567").drop 3).take 3 ++ "-"
        ++ ((digitsOnly "555-123-4567").drop 6).take 4
    ∧ formatPhone "12345" = "12345"
    ∧ textOfLabel (okImage (GenerateCardServerA assetsOkI0 (cardOfFormA (fun _ => "")))) .phone
        = some ("Phone: " ++ formatPhone (cardOfFormA (fun _ => "")).PhoneNumber)
    ∧ textOfLabel (okImage (GenerateCardServerB assetsOk0 (mkCard goodRow))) .phone
        = some (formatPhone (mkCard goodRow).PhoneNumber)
    ∧ textOfLabel (okImage (GenerateCardBatch assetsOk0 (mkCard goodRow))) .phone
        = some (mkCard goodRow).PhoneNumber := by
  refine ⟨c1_amended.1 "555-123-4567" (by decide), c1_amended.2.1 "12345" (by decide),
    c1_amended.2.2.1 assetsOkI0 (cardOfFormA (fun _ => "")) _ rfl,
    c1_amended.2.2.2.1 assetsOk0 (mkCard goodRow) _ rfl,
    c1_amended.2.2.2.2 assetsOk0 (mkCard goodRow) _ rfl⟩

/-- C2: the claim is contradicted by the code.  Go's `csv.NewReader` leaves
`FieldsPerRecord` at 0, so the 7-field header fixes the expected field count and a
3-field data row makes `Read` return `ErrFieldCount`; `readCardsFromCSV` turns that
into a returned error — before its own `len(record) < 7` skip branch can run — and
the batch run exits fatally instead of logging, skipping the row and continuing
with `goodRow`. -/
theorem c2_short_row_aborts_batch :
    readCardsFromCSV [hdr7, shortRow, goodRow]
      = .error "failed to read CSV record: wrong number of fields"
    ∧ runBatch envBatchOk [hdr7, shortRow, goodRow]
      = .fatal "Error reading cards from CSV: failed to read CSV record: wrong number of fields"
    ∧ readCardsFromCSV [hdr7, shortRow, goodRow] ≠ .ok [mkCard goodRow] := by
  refine ⟨rfl, by decide, ?_⟩
  intro hco
  rw [show readCardsFromCSV [hdr7, shortRow, goodRow]
      = .error "failed to read CSV record: wrong number of fields" from rfl] at hco
  exact absurd hco (by simp)

/-- C3 counterexample: a valid CSV with two well-formed rows that carry the same
name produces two PNG writes to the same file name, so only one PNG file exists
afterwards — not two. -/
theorem c3_counterexample :
    readCardsFromCSV [hdr7, goodRow, goodRow] = .ok [mkCard goodRow, mkCard goodRow]
    ∧ (writesOf (runBatch envBatchOk [hdr7, goodRow, goodRow])).length = 2
    ∧ (filesProduced (runBatch envBatchOk [hdr7, goodRow, goodRow])).length = 1 := by
  refine ⟨rfl, rfl, by decide⟩

/-- C3 (amended): for a CSV the csv reader accepts (all records, header included,
with one common field count of at least 7) whose N data rows all generate, with
every file creation and every PNG encoding succeeding, the batch program performs
exactly N PNG writes, one per row in row order, named by `outputFileName`; the
distinct files produced are one per distinct sanitized name, hence exactly N when
the N names are distinct. -/
theorem c3_amended :
    ∀ (env : BatchEnv) (hdr : List String) (rest : List (List String))
      (bg : GoImage) (rf bf : GoFont),
      env.bgExists = true → env.regularExists = true → env.boldExists = true →
      env.csvExists = true →
      env.assets.bg = .ok bg → env.assets.regularFont = .ok rf →
      env.assets.boldFont = .ok bf → rf.faceOk = true → bf.faceOk = true →
      (∀ name, env.createOk name = true) → (∀ img, env.pngEncodeOk img = true) →
      (∀ r ∈ rest, r.length = hdr.length) → 7 ≤ hdr.length → rest ≠ [] →
      ∃ writes, runBatch env (hdr :: rest) = .done writes
        ∧ writes.length = rest.length
        ∧ writes.map Prod.fst = rest.map (fun row => outputFileName (mkCard row).Name)
        ∧ ((rest.map (fun row => outputFileName (mkCard row).Name)).Nodup →
            (filesProduced (runBatch env (hdr :: rest))).length = rest.length) := by
  intro env hdr rest bg rf bf hbgE hregE hboldE hcsvE hbg hrf hbf hrok hbok hcr hen
    hlen h7 hne
  have hcards : readCardsFromCSV (hdr :: rest) = .ok (rest.map mkCard) :=
    readRows_all_ok hlen h7
  have hloop := batchLoop_all_ok hbg hrf hbf hrok hbok hcr hen (rest.map mkCard)
  have hdone : runBatch env (hdr :: rest) = .done ((rest.map mkCard).map (fun c =>
      (outputFileName c.Name, batchRender bg ⟨bf.style, 20⟩ ⟨bf.style, 14⟩
        ⟨bf.style, 15⟩ ⟨rf.style, 13⟩ ⟨rf.style, 13⟩ c))) := by
    unfold runBatch
    simp [hbgE, hregE, hboldE, hcsvE, hcards, hloop, hne]
  refine ⟨_, hdone, by simp, by simp [List.map_map], fun hnd => ?_⟩
  rw [hdone]
  unfold filesProduced writesOf
  have hnames : ((rest.map mkCard).map (fun c =>
      (outputFileName c.Name, batchRender bg ⟨bf.style, 20⟩ ⟨bf.style, 14⟩
        ⟨bf.style, 15⟩ ⟨rf.style, 13⟩ ⟨rf.style, 13⟩ c))).map Prod.fst
      = rest.map (fun row => outputFileName (mkCard row).Name) := by
    simp [List.map_map]
  rw [hnames, List.dedup_eq_self.mpr hnd]
  simp

/-- C3 amended witness: the healthy environment over a one-row CSV. -/
theorem c3_amended_witness :
    ∃ writes, runBatch envBatchOk [hdr7, goodRow] = .done writes
      ∧ writes.length = [goodRow].length
      ∧ writes.map Prod.fst = [goodRow].map (fun row => outputFileName (mkCard row).Name)
      ∧ (([goodRow].map (fun row => outputFileName (mkCard row).Name)).Nodup →
          (filesProduced (runBatch envBatchOk [hdr7, goodRow])).length = [goodRow].length) :=
  c3_amended envBatchOk hdr7 [goodRow] bgImg0 fontR0 fontB0 rfl rfl rfl rfl rfl rfl rfl
    rfl rfl (fun _ => rfl) (fun _ => rfl) (by decide) (by decide) (by decide)

/-- C4: blank optional fields (pronouns in the batch variant; pronouns, department
and the four land-grant lines in server A) are rendered exactly as a card on which
those fields do not exist: no draw call is issued for them and every subsequent line
is drawn at the y coordinate it would have without them. -/
theorem c4_blank_optional_fields :
    (∀ bg nf mf of pf c,
      serverARender bg nf mf of pf c = serverARenderOpt bg nf mf of pf (toOptFull c))
    ∧ (∀ bg nf mf tf of pf c,
      batchRender bg nf mf tf of pf c = batchRenderOpt bg nf mf tf of pf (toOptBatch c)) :=
  ⟨fun bg nf mf of pf c => serverARender_eq_opt bg nf mf of pf c,
    fun bg nf mf tf of pf c => batchRender_eq_opt bg nf mf tf of pf c⟩

/-- C5: every file the batch loop writes is named by the record's Name with every
space character replaced by an underscore, followed by `_email_signature.png`. -/
theorem c5_output_filename :
    (∀ name, outputFileName name
        = String.mk (name.data.map (fun ch => if ch = ' ' then '_' else ch))
          ++ "_email_signature.png")
    ∧ (∀ env rows writes, runBatch env rows = .done writes →
        ∃ cards, readCardsFromCSV rows = .ok cards ∧
          writes.map Prod.fst = cards.map (fun c =>
            String.mk (c.Name.data.map (fun ch => if ch = ' ' then '_' else ch))
              ++ "_email_signature.png")) := by
  constructor
  · intro name
    rw [outputFileName, replaceAllSpace_eq_map]
  · intro env rows writes h
    unfold runBatch at h
    split at h
    · simp at h
    · split at h
      · simp at h
      · split at h
        · simp at h
        · split at h
          · simp at h
          · split at h
            · simp at h
            · rename_i cards hcards
              split at h
              · simp at h
              · split at h
                · simp at h
                · rename_i ws hloop
                  obtain rfl : ws = writes := by simpa using h
                  refine ⟨cards, hcards, ?_⟩
                  rw [batchLoop_names hloop]
                  simp [outputFileName, replaceAllSpace_eq_map]

/-- C5 witness: the healthy environment over a one-row CSV whose name has a space. -/
theorem c5_output_filename_witness :
    ∃ cards, readCardsFromCSV [hdr7, goodRow] = .ok cards ∧
      (writesOf (runBatch envBatchOk [hdr7, goodRow])).map Prod.fst
        = cards.map (fun c =>
          String.mk (c.Name.data.map (fun ch => if ch = ' ' then '_' else ch))
            ++ "_email_signature.png") :=
  c5_output_filename.2 envBatchOk [hdr7, goodRow]
    (writesOf (runBatch envBatchOk [hdr7, goodRow])) rfl

/-- A POST request with a parsable, all-empty form. -/
def reqPost0 : HttpRequest := ⟨"POST", true, fun _ => ""⟩

/-- A GET request. -/
def reqGet0 : HttpRequest := ⟨"GET", true, fun _ => ""⟩

/-- A POST request whose form data does not parse. -/
def reqBadForm : HttpRequest := ⟨"POST", false, fun _ => ""⟩

/-- A PNG encoder into the response that succeeds. -/
def enc0 : RGBAImage → Except (String × List Nat) (List Nat) :=
  fun img => .ok [img.texts.length]

/-- A PNG encoder into the response whose underlying write fails at the first
chunk, having delivered no bytes (the first `Write` still commits the response). -/
def encBad : RGBAImage → Except (String × List Nat) (List Nat) :=
  fun _ => .error ("broken pipe", [])

/-- C6: on a POST whose form parses, whose card generates and whose PNG encoding
into the response succeeds, each server responds 200 with Content-Type image/png,
its attachment Content-Disposition header, and the encoded PNG as the body. -/
theorem c6_post_success_response :
    ∀ (envA : AssetEnvI) (envB : AssetEnv)
      (encA encB : RGBAImage → Except (String × List Nat) (List Nat))
      (r : HttpRequest) (imgA imgB : RGBAImage) (bsA bsB : List Nat),
      r.method = "POST" → r.parseFormOk = true →
      (GenerateCardServerA envA (cardOfFormA r.formValue) = .ok imgA → encA imgA = .ok bsA →
        (cardHandlerA envA encA r).1
          = { status := 200
              contentType := some "image/png"
              contentDisposition := some "attachment; filename=\"emailsignature.png\""
              body := bsA
              bodyText := "" })
      ∧ (GenerateCardServerB envB (cardOfFormB r.formValue) = .ok imgB → encB imgB = .ok bsB →
        (cardHandlerB envB encB r).1
          = { status := 200
              contentType := some "image/png"
              contentDisposition := some "attachment; filename=\"EmailSignature.png\""
              body := bsB
              bodyText := "" }) := by
  intro envA envB encA encB r imgA imgB bsA bsB hm hp
  constructor
  · intro hgen henc
    simp [cardHandlerA, hm, hp, hgen, henc, initResponse]
  · intro hgen henc
    simp [cardHandlerB, hm, hp, hgen, henc, initResponse]

/-- C6 witness: the all-ok environments on the all-empty POST form. -/
theorem c6_post_success_response_witness :
    (cardHandlerA assetsOkI0 enc0 reqPost0).1
      = { status := 200
          contentType := some "image/png"
          contentDisposition := some "attachment; filename=\"emailsignature.png\""
          body := [okImage (GenerateCardServerA assetsOkI0 (cardOfFormA reqPost0.formValue))].map
            (fun i => i.texts.length)
          bodyText := "" }
    ∧ (cardHandlerB assetsOk0 enc0 reqPost0).1
      = { status := 200
          contentType := some "image/png"
          contentDisposition := some "attachment; filename=\"EmailSignature.png\""
          body := [okImage (GenerateCardServerB assetsOk0 (cardOfFormB reqPost0.formValue))].map
            (fun i => i.texts.length)
          bodyText := "" } := by
  have h := c6_post_success_response assetsOkI0 assetsOk0 enc0 enc0 reqPost0
    (okImage (GenerateCardServerA assetsOkI0 (cardOfFormA reqPost0.formValue)))
    (okImage (GenerateCardServerB assetsOk0 (cardOfFormB reqPost0.formValue)))
    [(okImage (GenerateCardServerA assetsOkI0 (cardOfFormA reqPost0.formValue))).texts.length]
    [(okImage (GenerateCardServerB assetsOk0 (cardOfFormB reqPost0.formValue))).texts.length]
    rfl rfl
  exact ⟨h.1 rfl rfl, h.2 rfl rfl⟩

/-- C7: the first CSV record is consumed as the header — it fixes the expected field
count but never becomes a card, every returned card coming from a later record —
and an empty CSV file yields an error, not an empty list. -/
theorem c7_header_discarded :
    readCardsFromCSV [] = .error "CSV file is empty"
    ∧ (∀ header rest, readCardsFromCSV (header :: rest) = readRows header.length rest)
    ∧ (∀ header rest cards, readCardsFromCSV (header :: rest) = .ok cards →
        ∀ c ∈ cards, ∃ row ∈ rest, c = mkCard row) :=
  ⟨rfl, fun _ _ => rfl, fun _ _ _ h => readRows_mem h⟩

/-- C7 witness: the one-row CSV. -/
theorem c7_header_discarded_witness :
    ∃ row ∈ [goodRow], mkCard goodRow = mkCard row :=
  c7_header_discarded.2.2 hdr7 [goodRow] [mkCard goodRow] rfl (mkCard goodRow) (by simp)

/-- C8 counterexample: a PNG-encoding failure is not surfaced as a 500.  By the
time `png.Encode` reports an error it has already begun the response (its first
write commits the 200 status and the PNG headers), so the handler's
`http.Error(..., 500)` is an ignored superfluous `WriteHeader`: the concrete
failing encoder leaves both servers' responses at status 200, not 500, with the
error text appended to the begun body. -/
theorem c8_counterexample :
    GenerateCardServerA assetsOkI0 (cardOfFormA reqPost0.formValue)
      = .ok (okImage (GenerateCardServerA assetsOkI0 (cardOfFormA reqPost0.formValue)))
    ∧ encBad (okImage (GenerateCardServerA assetsOkI0 (cardOfFormA reqPost0.formValue)))
      = .error ("broken pipe", [])
    ∧ (cardHandlerA assetsOkI0 encBad reqPost0).1.status = 200
    ∧ (cardHandlerA assetsOkI0 encBad reqPost0).1.status ≠ 500
    ∧ (cardHandlerA assetsOkI0 encBad reqPost0).1.bodyText = "Failed to encode PNG image\n"
    ∧ (cardHandlerB assetsOk0 encBad reqPost0).1.status = 200
    ∧ (cardHandlerB assetsOk0 encBad reqPost0).1.status ≠ 500 := by
  refine ⟨rfl, rfl, rfl, by decide, rfl, rfl, by decide⟩

/-- C8 (amended): every failure is fatal in batch mode — a missing input file, a
CSV read error, a generation failure, a failed `os.Create` and a failed
`png.Encode` all end the run with a fatal log message — and in server mode a form
parse failure is surfaced as 400 and a card generation failure as 500; a PNG
encoding failure, however, happens after the 200 response has begun, so the
attempted 500 is ignored: the status stays 200, the PNG headers stand, and only the
error text reaches the already-begun body.  No retries, no partial recovery. -/
theorem c8_amended :
    (∀ (env : AssetEnvI) enc r, r.method = "POST" → r.parseFormOk = false →
      (cardHandlerA env enc r).1.status = 400)
    ∧ (∀ (env : AssetEnv) enc r, r.method = "POST" → r.parseFormOk = false →
      (cardHandlerB env enc r).1.status = 400)
    ∧ (∀ (env : AssetEnvI) enc r e, r.method = "POST" → r.parseFormOk = true →
      GenerateCardServerA env (cardOfFormA r.formValue) = .error e →
      (cardHandlerA env enc r).1.status = 500)
    ∧ (∀ (env : AssetEnv) enc r e, r.method = "POST" → r.parseFormOk = true →
      GenerateCardServerB env (cardOfFormB r.formValue) = .error e →
      (cardHandlerB env enc r).1.status = 500)
    ∧ (∀ (env : AssetEnvI) enc r img e wr, r.method = "POST" → r.parseFormOk = true →
      GenerateCardServerA env (cardOfFormA r.formValue) = .ok img →
      enc img = .error (e, wr) →
      (cardHandlerA env enc r).1.status = 200
        ∧ (cardHandlerA env enc r).1.contentType = some "image/png"
        ∧ (cardHandlerA env enc r).1.bodyText = "Failed to encode PNG image\n")
    ∧ (∀ (env : AssetEnv) enc r img e wr, r.method = "POST" → r.parseFormOk = true →
      GenerateCardServerB env (cardOfFormB r.formValue) = .ok img →
      enc img = .error (e, wr) →
      (cardHandlerB env enc r).1.status = 200
        ∧ (cardHandlerB env enc r).1.contentType = some "image/png"
        ∧ (cardHandlerB env enc r).1.bodyText = "Failed to encode PNG image\n")
    ∧ (∀ env rows, env.bgExists = false →
      runBatch env rows = .fatal "Background image file does not exist")
    ∧ (∀ env rows, env.bgExists = true → env.regularExists = false →
      runBatch env rows = .fatal "Regular font file does not exist")
    ∧ (∀ env rows, env.bgExists = true → env.regularExists = true → env.boldExists = false →
      runBatch env rows = .fatal "Bold font file does not exist")
    ∧ (∀ env rows, env.bgExists = true → env.regularExists = true → env.boldExists = true →
      env.csvExists = false → runBatch env rows = .fatal "CSV file does not exist")
    ∧ (∀ env rows e, env.bgExists = true → env.regularExists = true → env.boldExists = true →
      env.csvExists = true → readCardsFromCSV rows = .error e →
      runBatch env rows = .fatal ("Error reading cards from CSV: " ++ e))
    ∧ (∀ env rows card restCards e, env.bgExists = true → env.regularExists = true →
      env.boldExists = true → env.csvExists = true →
      readCardsFromCSV rows = .ok (card :: restCards) →
      GenerateCardBatch env.assets card = .error e →
      runBatch env rows
        = .fatal ("Error generating email signature for " ++ card.Name ++ ": " ++ e))
    ∧ (∀ env rows card restCards img, env.bgExists = true → env.regularExists = true →
      env.boldExists = true → env.csvExists = true →
      readCardsFromCSV rows = .ok (card :: restCards) →
      GenerateCardBatch env.assets card = .ok img →
      env.createOk (outputFileName card.Name) = false →
      runBatch env rows
        = .fatal ("Failed to create output file " ++ outputFileName card.Name))
    ∧ (∀ env rows card restCards img, env.bgExists = true → env.regularExists = true →
      env.boldExists = true → env.csvExists = true →
      readCardsFromCSV rows = .ok (card :: restCards) →
      GenerateCardBatch env.assets card = .ok img →
      env.createOk (outputFileName card.Name) = true →
      env.pngEncodeOk img = false →
      runBatch env rows
        = .fatal ("Failed to encode image to PNG for " ++ card.Name)) := by
  refine ⟨?_, ?_, ?_, ?_, ?_, ?_, ?_, ?_, ?_, ?_, ?_, ?_, ?_, ?_⟩
  · intro env enc r hm hp
    simp [cardHandlerA, hm, hp, httpError]
  · intro env enc r hm hp
    simp [cardHandlerB, hm, hp, httpError]
  · intro env enc r e hm hp hgen
    simp [cardHandlerA, hm, hp, hgen, httpError]
  · intro env enc r e hm hp hgen
    simp [cardHandlerB, hm, hp, hgen, httpError]
  · intro env enc r img e wr hm hp hgen henc
    simp [cardHandlerA, hm, hp, hgen, henc, httpErrorCommitted, initResponse]
  · intro env enc r img e wr hm hp hgen henc
    simp [cardHandlerB, hm, hp, hgen, henc, httpErrorCommitted, initResponse]
  · intro env rows h
    simp [runBatch, h]
  · intro env rows h1 h2
    simp [runBatch, h1, h2]
  · intro env rows h1 h2 h3
    simp [runBatch, h1, h2, h3]
  · intro env rows h1 h2 h3 h4
    simp [runBatch, h1, h2, h3, h4]
  · intro env rows e h1 h2 h3 h4 hcsv
    simp [runBatch, h1, h2, h3, h4, hcsv]
  · intro env rows card restCards e h1 h2 h3 h4 hcards hgen
    simp [runBatch, h1, h2, h3, h4, hcards, batchLoop, hgen]
  · intro env rows card restCards img h1 h2 h3 h4 hcards hgen hcr
    simp [runBatch, h1, h2, h3, h4, hcards, batchLoop, hgen, hcr]
  · intro env rows card restCards img h1 h2 h3 h4 hcards hgen hcr hen
    simp [runBatch, h1, h2, h3, h4, hcards, batchLoop, hgen, hcr, hen]

/-- C8 amended witness: one concrete scenario for each failure path. -/
theorem c8_amended_witness :
    (cardHandlerA assetsOkI0 enc0 reqBadForm).1.status = 400
    ∧ (cardHandlerB assetsOk0 enc0 reqBadForm).1.status = 400
    ∧ (cardHandlerA assetsBadBgI enc0 reqPost0).1.status = 500
    ∧ (cardHandlerB assetsBadBg enc0 reqPost0).1.status = 500
    ∧ (cardHandlerA assetsOkI0 encBad reqPost0).1.status = 200
    ∧ (cardHandlerB assetsOk0 encBad reqPost0).1.status = 200
    ∧ runBatch ⟨assetsOk0, false, true, true, true, fun _ => true, fun _ => true⟩ []
        = .fatal "Background image file does not exist"
    ∧ runBatch ⟨assetsOk0, true, false, true, true, fun _ => true, fun _ => true⟩ []
        = .fatal "Regular font file does not exist"
    ∧ runBatch ⟨assetsOk0, true, true, false, true, fun _ => true, fun _ => true⟩ []
        = .fatal "Bold font file does not exist"
    ∧ runBatch ⟨assetsOk0, true, true, true, false, fun _ => true, fun _ => true⟩ []
        = .fatal "CSV file does not exist"
    ∧ runBatch envBatchOk []
        = .fatal ("Error reading cards from CSV: " ++ "CSV file is empty")
    ∧ runBatch envBatchBadBg [hdr7, goodRow]
        = .fatal ("Error generating email signature for " ++ (mkCard goodRow).Name ++ ": "
            ++ "failed to open background image")
    ∧ runBatch ⟨assetsOk0, true, true, true, true, fun _ => false, fun _ => true⟩
          [hdr7, goodRow]
        = .fatal ("Failed to create output file " ++ outputFileName (mkCard goodRow).Name)
    ∧ runBatch ⟨assetsOk0, true, true, true, true, fun _ => true, fun _ => false⟩
          [hdr7, goodRow]
        = .fatal ("Failed to encode image to PNG for " ++ (mkCard goodRow).Name) := by
  obtain ⟨h1, h2, h3, h4, h5, h6, h7, h8, h9, h10, h11, h12, h13, h14⟩ := c8_amended
  refine ⟨h1 assetsOkI0 enc0 reqBadForm rfl rfl,
    h2 assetsOk0 enc0 reqBadForm rfl rfl,
    h3 assetsBadBgI enc0 reqPost0 "failed to open background image" rfl rfl rfl,
    h4 assetsBadBg enc0 reqPost0 "failed to open background image" rfl rfl rfl,
    (h5 assetsOkI0 encBad reqPost0
      (okImage (GenerateCardServerA assetsOkI0 (cardOfFormA reqPost0.formValue)))
      "broken pipe" [] rfl rfl rfl rfl).1,
    (h6 assetsOk0 encBad reqPost0
      (okImage (GenerateCardServerB assetsOk0 (cardOfFormB reqPost0.formValue)))
      "broken pipe" [] rfl rfl rfl rfl).1,
    h7 ⟨assetsOk0, false, true, true, true, fun _ => true, fun _ => true⟩ [] rfl,
    h8 ⟨assetsOk0, true, false, true, true, fun _ => true, fun _ => true⟩ [] rfl rfl,
    h9 ⟨assetsOk0, true, true, false, true, fun _ => true, fun _ => true⟩ [] rfl rfl rfl,
    h10 ⟨assetsOk0, true, true, true, false, fun _ => true, fun _ => true⟩ [] rfl rfl rfl rfl,
    h11 envBatchOk [] "CSV file is empty" rfl rfl rfl rfl rfl,
    h12 envBatchBadBg [hdr7, goodRow] (mkCard goodRow) []
      "failed to open background image" rfl rfl rfl rfl rfl rfl,
    h13 ⟨assetsOk0, true, true, true, true, fun _ => false, fun _ => true⟩ [hdr7, goodRow]
      (mkCard goodRow) []
      (okImage (GenerateCardBatch assetsOk0 (mkCard goodRow))) rfl rfl rfl rfl rfl rfl rfl,
    h14 ⟨assetsOk0, true, true, true, true, fun _ => true, fun _ => false⟩ [hdr7, goodRow]
      (mkCard goodRow) []
      (okImage (GenerateCardBatch assetsOk0 (mkCard goodRow))) rfl rfl rfl rfl rfl rfl rfl rfl⟩

/-- C9: each server's handler answers any non-POST request with 405 Method Not
Allowed and returns at once: the form is not read and no image is generated. -/
theorem c9_non_post_rejected :
    ∀ (envA : AssetEnvI) (envB : AssetEnv)
      (encA encB : RGBAImage → Except (String × List Nat) (List Nat))
      (r : HttpRequest), r.method ≠ "POST" →
      ((cardHandlerA envA encA r).1.status = 405
        ∧ (cardHandlerA envA encA r).1.bodyText = "Method not allowed\n"
        ∧ (cardHandlerA envA encA r).2 = [])
      ∧ ((cardHandlerB envB encB r).1.status = 405
        ∧ (cardHandlerB envB encB r).1.bodyText = "Method not allowed\n"
        ∧ (cardHandlerB envB encB r).2 = []) := by
  intro envA envB encA encB r h
  simp [cardHandlerA, cardHandlerB, h, httpError, initResponse]

/-- C9 witness: a GET request. -/
theorem c9_non_post_rejected_witness :
    (cardHandlerA assetsOkI0 enc0 reqGet0).1.status = 405
    ∧ (cardHandlerA assetsOkI0 enc0 reqGet0).2 = []
    ∧ (cardHandlerB assetsOk0 enc0 reqGet0).1.status = 405
    ∧ (cardHandlerB assetsOk0 enc0 reqGet0).2 = [] := by
  have h := c9_non_post_rejected assetsOkI0 assetsOk0 enc0 enc0 reqGet0 (by decide)
  exact ⟨h.1.1, h.1.2.2, h.2.1, h.2.2.2⟩

/-- C10: text drawing never changes an image's bounds, and every successfully
generated card image has exactly the bounds of the decoded background image. -/
theorem c10_bounds_preserved :
    (∀ img face label text x y col, (drawText img face label text x y col).bounds = img.bounds)
    ∧ (∀ env c img bg, env.bg = .ok bg → GenerateCardBatch env c = .ok img →
        img.bounds = bg.bounds)
    ∧ (∀ env c img bg, env.bg = .ok bg → GenerateCardServerB env c = .ok img →
        img.bounds = bg.bounds)
    ∧ (∀ (env : AssetEnvI) c img bg, env.bg = .ok bg → GenerateCardServerA env c = .ok img →
        img.bounds = bg.bounds) := by
  refine ⟨fun img face label text x y col => rfl, ?_, ?_, ?_⟩
  · intro env c img bg hbg h
    obtain ⟨bg', rf, bf, hbg', hrf, hbf, hrok, hbok, rfl⟩ := generateBatch_ok h
    obtain rfl : bg = bg' := Except.ok.inj (hbg.symm.trans hbg')
    exact batchRender_bounds bg _ _ _ _ _ c
  · intro env c img bg hbg h
    obtain ⟨bg', rf, bf, hbg', hrf, hbf, hrok, hbok, rfl⟩ := generateServerB_ok h
    obtain rfl : bg = bg' := Except.ok.inj (hbg.symm.trans hbg')
    exact serverBRender_bounds bg _ _ _ _ _ c
  · intro env c img bg hbg h
    obtain ⟨bg', rf, bf, itf, hbg', hrf, hbf, hitf, hrok, hbok, hiok, rfl⟩ := generateServerA_ok h
    obtain rfl : bg = bg' := Except.ok.inj (hbg.symm.trans hbg')
    exact serverARender_bounds bg _ _ _ _ c

/-- C10 witness: the concrete healthy environments. -/
theorem c10_bounds_preserved_witness :
    (okImage (GenerateCardBatch assetsOk0 (mkCard goodRow))).bounds = bgImg0.bounds
    ∧ (okImage (GenerateCardServerB assetsOk0 (mkCard goodRow))).bounds = bgImg0.bounds
    ∧ (okImage (GenerateCardServerA assetsOkI0 (cardOfFormA (fun _ => "")))).bounds
        = bgImg0.bounds := by
  refine ⟨c10_bounds_preserved.2.1 assetsOk0 (mkCard goodRow) _ bgImg0 rfl rfl,
    c10_bounds_preserved.2.2.1 assetsOk0 (mkCard goodRow) _ bgImg0 rfl rfl,
    c10_bounds_preserved.2.2.2 assetsOkI0 (cardOfFormA (fun _ => "")) _ bgImg0 rfl rfl⟩

end CardCreator
